import Mathlib

/-!
Verification of the cipmap filter engine, fiscal-year inference and hex-grid
geometry against their JavaScript sources (src/js/filters.js, the data-loading
module, src/js/user.js and src/docs/hex-location-format.md).

JavaScript numbers are modelled as exact rationals (`ℚ`); `NaN` is modelled as
`none` in an `Option`.  Host-library calls (`Math.sqrt`, `Math.cos`, the `Date`
parser) are modelled explicitly where noted.  All definitions are computable so
concrete runs can be checked with `decide`.
-/

set_option autoImplicit false
set_option maxRecDepth 100000

namespace Cipmap

/-! ### Character and string utilities modelling the JavaScript primitives -/

/-- Models the ASCII portion of the JavaScript `\s` whitespace class
(space, tab, line feed, carriage return, vertical tab, form feed). -/
def isSpaceChar (c : Char) : Bool :=
  c = ' ' || c = '\t' || c = '\n' || c = '\r' || c = '\x0b' || c = '\x0c'

/-- Models `String.prototype.toLowerCase` on ASCII characters. -/
def lowerChar (c : Char) : Char :=
  if 'A' ≤ c ∧ c ≤ 'Z' then Char.ofNat (c.toNat + 32) else c

/-- Lower-case an entire string (ASCII model of `toLowerCase`). -/
def lowerStr (s : String) : String :=
  String.mk (s.data.map lowerChar)

/-- Does `hay` start with `needle`?  (helper for the substring test). -/
def startsWithL : List Char → List Char → Bool
  | [], _ => true
  | _ :: _, [] => false
  | a :: as, b :: bs => a = b && startsWithL as bs

/-- Models `String.prototype.includes`: does `hay` contain `needle`
as a contiguous substring? -/
def containsL (needle : List Char) : List Char → Bool
  | [] => startsWithL needle []
  | c :: cs => startsWithL needle (c :: cs) || containsL needle cs

/-- `hay.includes(needle)` on strings. -/
def strIncludes (hay needle : String) : Bool :=
  containsL needle.data hay.data

/-- Value of a most-significant-digit-first list of decimal digit characters. -/
def digitsToNat (ds : List Char) : Nat :=
  ds.foldl (fun a c => 10 * a + (c.toNat - 48)) 0

/-- First maximal run of decimal digits in a string, as produced by the
JavaScript regular expression `/\d+/` (`match[0]`); `none` when no digit
occurs. -/
def firstDigitRun : List Char → Option (List Char)
  | [] => none
  | c :: cs => if c.isDigit then some (c :: cs.takeWhile Char.isDigit) else firstDigitRun cs

/-- Decimal digit character for `n < 10`. -/
def digitChar (n : Nat) : Char := Char.ofNat (48 + n)

/-- Fuelled most-significant-digit-first decimal printer for naturals;
`fuel` bounds the recursion depth so the definition is structural. -/
def natReprCore : Nat → Nat → List Char
  | 0, _ => []
  | fuel + 1, n =>
    if n < 10 then [digitChar n]
    else natReprCore fuel (n / 10) ++ [digitChar (n % 10)]

/-- Decimal representation of a natural number, as produced by JavaScript
string interpolation of a non-negative integer. -/
def natRepr (n : Nat) : List Char := natReprCore (n + 1) n

/-- Decimal representation of an integer, as produced by JavaScript string
interpolation (`${n}`): a leading minus sign for negative values. -/
def intRepr (n : Int) : List Char :=
  if n < 0 then '-' :: natRepr n.natAbs else natRepr n.toNat

/-- Integer decimal representation as a string. -/
def intReprS (n : Int) : String := String.mk (intRepr n)

/-- Natural-number decimal representation as a string. -/
def natReprS (n : Nat) : String := String.mk (natRepr n)

/-- Models `String.prototype.split(sep)` on lists of characters: splits at
every occurrence of `sep`, keeping empty chunks (as JavaScript does). -/
def listSplitOn (sep : Char) : List Char → List (List Char)
  | [] => [[]]
  | c :: cs =>
    let r := listSplitOn sep cs
    if c = sep then [] :: r else (c :: r.headD []) :: r.tail

/-- Leading run of decimal digits interpreted as a natural number; `none`
when the list does not start with a digit (JavaScript `NaN`). -/
def parseDigitsL (cs : List Char) : Option Nat :=
  let ds := cs.takeWhile Char.isDigit
  if ds.isEmpty then none else some (digitsToNat ds)

/-- Models `parseInt(s)` (base 10) on a character list: skip leading
whitespace, read an optional sign and then a leading digit run; `none`
models `NaN`. -/
def jsParseIntL (cs : List Char) : Option Int :=
  match cs.dropWhile isSpaceChar with
  | [] => none
  | c :: rest =>
    if c = '-' then (parseDigitsL rest).map (fun m => -(m : Int))
    else if c = '+' then (parseDigitsL rest).map (fun m => (m : Int))
    else (parseDigitsL (c :: rest)).map (fun m => (m : Int))

/-- Models `parseInt` applied to an element access that may be `undefined`
(JavaScript `parseInt(undefined)` is `NaN`, modelled by `none`). -/
def jsParseInt (v : Option String) : Option Int :=
  v.bind (fun s => jsParseIntL s.data)

/-- Fractional value of a digit run appearing after a decimal point. -/
def fracDigitsVal (ds : List Char) : ℚ :=
  (digitsToNat ds : ℚ) / (10 : ℚ) ^ ds.length

/-- Exponent suffix of a JavaScript float literal (`e`/`E`, optional sign,
digit run); `none` when no well-formed exponent follows. -/
def jsExpPart (cs : List Char) : Option Int :=
  match cs with
  | [] => none
  | c :: rest =>
    if c = 'e' ∨ c = 'E' then
      match rest with
      | [] => none
      | s :: rest2 =>
        if s = '-' then (parseDigitsL rest2).map (fun m => -(m : Int))
        else if s = '+' then (parseDigitsL rest2).map (fun m => (m : Int))
        else (parseDigitsL rest).map (fun m => (m : Int))
    else none

/-- Significand of a JavaScript float literal: a digit run, an optional
decimal point and fractional digit run.  Returns the value and the unread
remainder; `none` models `NaN` (no digits at all). -/
def jsSignificand (cs : List Char) : Option (ℚ × List Char) :=
  let ds := cs.takeWhile Char.isDigit
  let rest := cs.dropWhile Char.isDigit
  match rest with
  | [] => if ds.isEmpty then none else some ((digitsToNat ds : ℚ), [])
  | c :: rest2 =>
    if c = '.' then
      let fs := rest2.takeWhile Char.isDigit
      if ds.isEmpty && fs.isEmpty then none
      else some ((digitsToNat ds : ℚ) + fracDigitsVal fs, rest2.dropWhile Char.isDigit)
    else if ds.isEmpty then none else some ((digitsToNat ds : ℚ), rest)

/-- Models `parseFloat` on finite decimal literals: leading whitespace,
optional sign, significand, optional exponent.  `none` models `NaN`.
(The special literal `Infinity` is outside the model; every value the
data pipeline cares about is finite.) -/
def jsParseFloatL (cs : List Char) : Option ℚ :=
  let cs1 := cs.dropWhile isSpaceChar
  match cs1 with
  | [] => none
  | c :: rest =>
    let (sign, body) : ℚ × List Char :=
      if c = '-' then (-1, rest) else if c = '+' then (1, rest) else (1, c :: rest)
    match jsSignificand body with
    | none => none
    | some (q, after) =>
      match jsExpPart after with
      | none => some (sign * q)
      | some e => some (sign * q * (10 : ℚ) ^ e)

/-- `parseFloat` on a string. -/
def jsParseFloat (s : String) : Option ℚ := jsParseFloatL s.data

/-- Models JavaScript string truthiness for a possibly-undefined string
cell: `undefined`/`null` and the empty string are falsy. -/
def jsTruthyOptStr : Option String → Bool
  | none => false
  | some s => s ≠ ""

/-- Models `String.prototype.trim` (ASCII whitespace model). -/
def trimStr (s : String) : String :=
  String.mk (((s.data.dropWhile isSpaceChar).reverse.dropWhile isSpaceChar).reverse)

/-! ### Data model (spec section 3, built by the data-loading module) -/

/-- A project record as constructed by `parseProject`.  JavaScript numbers are
rationals; `lat`/`lng` are `none` when the CSV cell was falsy and
`some none` when `parseFloat` returned `NaN`. -/
structure Project where
  id : String
  name : String
  type : String
  status : String
  priority : String
  description : Option String
  locationName : Option String
  lat : Option (Option ℚ)
  lng : Option (Option ℚ)
  hasLocation : Bool
  fundingYears : List (String × ℚ)
  totalFunding : ℚ
  hasExplicitTotalCost : Bool
  fundingSource : List String
  department : Option String
  startDate : Option String
  constructionStart : Option String
  endDate : Option String
  isOngoing : Bool
  link : Option String
  deriving DecidableEq, Repr

/-- A numeric range `{min, max}` as produced by the dual-range sliders. -/
structure YearRange where
  min : Int
  max : Int
  deriving DecidableEq, Repr

/-- The filter-criteria record of src/js/filters.js (lines 11-18). -/
structure FilterCriteria where
  search : String
  types : List String
  statuses : List String
  priorities : List String
  fundingYearRange : Option YearRange
  timelineRange : Option YearRange
  deriving DecidableEq, Repr

/-- The fully-empty criteria record: the initial state of the module and the
state restored by `clearAllFilters`. -/
def emptyFilterCriteria : FilterCriteria :=
  { search := ""
    types := []
    statuses := []
    priorities := []
    fundingYearRange := none
    timelineRange := none }

/-- The slice of the configuration object consumed by the core:
`fundingYears` labels, the keys of `projectTypes` in declaration order,
`statusOptions` and `priorityLevels`. -/
structure Config where
  fundingYears : List String
  projectTypes : List String
  statusOptions : List String
  priorityLevels : List String
  deriving DecidableEq, Repr

/-! ### Filter engine (src/js/filters.js, `matchesFilters`, lines 35-94) -/

/-- Amount stored for label `fy`, with JavaScript `|| 0` defaulting for a
missing key: `(project.fundingYears[fy] || 0)`. -/
def fundingAt (project : Project) (fy : String) : ℚ :=
  (project.fundingYears.lookup fy).getD 0

/-- The search test of lines 38-42: lowercase substring match against
`name`, and against `description`/`locationName` when those are truthy. -/
def searchMatches (project : Project) (search : String) : Bool :=
  let searchStr := lowerStr search
  strIncludes (lowerStr project.name) searchStr
  || (match project.description with
      | some d => d ≠ "" && strIncludes (lowerStr d) searchStr
      | none => false)
  || (match project.locationName with
      | some l => l ≠ "" && strIncludes (lowerStr l) searchStr
      | none => false)

/-- The `config.fundingYears.some(...)` callback of lines 64-73: does any
configured label carry in-range positive funding?  `Future` is matched
exactly and gated on `max >= 9999`; other labels use the first digit run
of the label (`/\d+/`) plus 2000. -/
def hasFundingInRange (project : Project) (min max : Int) (config : Config) : Bool :=
  config.fundingYears.any fun fy =>
    if fy = "Future" then
      decide (9999 ≤ max) && decide (0 < fundingAt project "Future")
    else
      match firstDigitRun fy.data with
      | none => false
      | some ds =>
        let year : Int := (digitsToNat ds : Int) + 2000
        decide (min ≤ year) && decide (year ≤ max) && decide (0 < fundingAt project fy)

/-- Failure condition of the funding-year stage (lines 62-75): with a range
set, the project is rejected when no configured label matches and
`totalFunding > 0`. -/
def fundingYearFails (project : Project) (range : Option YearRange) (config : Config) : Bool :=
  match range with
  | none => false
  | some r => !(hasFundingInRange project r.min r.max config) && decide (0 < project.totalFunding)

/-- Models `project.startDate ? new Date(project.startDate).getFullYear() : null`.
The host `Date` parser is modelled on ISO-format strings: a string starting
with four digits (followed by a dash or nothing) yields that four-digit
year, anything else yields `NaN` (`none`).  The model assumes the host
resolves an ISO date to its labelled calendar year. -/
def jsDateFullYear (s : String) : Option Int :=
  match s.data with
  | c1 :: c2 :: c3 :: c4 :: rest =>
    if c1.isDigit && c2.isDigit && c3.isDigit && c4.isDigit then
      match rest with
      | [] => some (digitsToNat [c1, c2, c3, c4] : Int)
      | c5 :: _ => if c5 = '-' then some (digitsToNat [c1, c2, c3, c4] : Int) else none
    else none
  | _ => none

/-- Year extracted from a nullable date string field (lines 81-82):
`none` models both `null` (falsy field) and `NaN` (unparsable date). -/
def dateFieldYear (d : Option String) : Option Int :=
  match d with
  | none => none
  | some s => if s = "" then none else jsDateFullYear s

/-- Truthiness of the extracted year: `null`, `NaN` and the number `0`
are all falsy in the `if (projectStart && projectEnd)` tests. -/
def jsTruthyYear : Option Int → Bool
  | none => false
  | some n => n ≠ 0

/-- Failure condition of the timeline stage (lines 79-91): skipped when
`isOngoing`; otherwise interval checks on the truthy extracted years. -/
def timelineFails (project : Project) (range : Option YearRange) : Bool :=
  match range with
  | none => false
  | some r =>
    if project.isOngoing then false
    else
      let projectStart := dateFieldYear project.startDate
      let projectEnd := dateFieldYear project.endDate
      if jsTruthyYear projectStart && jsTruthyYear projectEnd then
        decide (projectEnd.getD 0 < r.min) || decide (projectStart.getD 0 > r.max)
      else if jsTruthyYear projectStart then
        decide (projectStart.getD 0 > r.max)
      else if jsTruthyYear projectEnd then
        decide (projectEnd.getD 0 < r.min)
      else false

/-- The pure predicate `matchesFilters(project, filterCriteria, config)`
of src/js/filters.js lines 35-94, with each early `return false` rendered
as a failing branch. -/
def matchesFilters (project : Project) (filterCriteria : FilterCriteria) (config : Config) : Bool :=
  if filterCriteria.search ≠ "" && !(searchMatches project filterCriteria.search) then false
  else if decide (0 < filterCriteria.types.length) && !(filterCriteria.types.contains project.type) then false
  else if decide (0 < filterCriteria.statuses.length) && !(filterCriteria.statuses.contains project.status) then false
  else if decide (0 < filterCriteria.priorities.length) && !(filterCriteria.priorities.contains project.priority) then false
  else if fundingYearFails project filterCriteria.fundingYearRange config then false
  else if timelineFails project filterCriteria.timelineRange then false
  else true

/-! ### Data loading (the data module: `parseCurrency`, `parseProject`,
`generateId`, `inferDateFromFiscalYear`) -/

/-- `parseCurrency` (data module lines 39-46): `null`/`undefined`/empty give
`0`; otherwise strip `$`, commas and whitespace and `parseFloat`; `NaN`
gives `0`.  CSV cells are always strings, so the `typeof value === 'number'`
branch never fires in the pipeline and is not modelled. -/
def parseCurrency (value : Option String) : ℚ :=
  match value with
  | none => 0
  | some s =>
    if s = "" then 0
    else
      let cleaned := s.data.filter (fun c => !(c = '$' || c = ',' || isSpaceChar c))
      match jsParseFloatL cleaned with
      | none => 0
      | some num => num

/-- Leftmost match of the regular expression `/FY(\d{2})/i`: scans for
`F`/`f`, `Y`/`y`, then two digits, returning the two-digit capture group
as a number. -/
def fyMatch : List Char → Option Nat
  | [] => none
  | c :: cs =>
    match cs with
    | c2 :: c3 :: c4 :: _ =>
      if (c = 'F' || c = 'f') && (c2 = 'Y' || c2 = 'y') && c3.isDigit && c4.isDigit then
        some ((c3.toNat - 48) * 10 + (c4.toNat - 48))
      else fyMatch cs
    | _ => none

/-- Full calendar year of a two-digit fiscal-year suffix (line 172):
`2000+YY` when `YY < 50`, else `1900+YY`. -/
def fyFullYear (shortYear : Nat) : Nat :=
  if shortYear < 50 then 2000 + shortYear else 1900 + shortYear

/-- `inferDateFromFiscalYear` (data module lines 163-181): `null`, the
sentinel `Future` and labels not matching `/FY(\d{2})/i` give `null`;
otherwise the two-digit year maps through `fyFullYear`, and the edge picks
July 1 of the previous year or June 30 of the year itself. -/
def inferDateFromFiscalYear (fiscalYear : Option String) (type : String) : Option String :=
  match fiscalYear with
  | none => none
  | some s =>
    if s = "" then none
    else if s = "Future" then none
    else
      match fyMatch s.data with
      | none => none
      | some shortYear =>
        let fullYear := fyFullYear shortYear
        if type = "start" then some (natReprS (fullYear - 1) ++ "-07-01")
        else some (natReprS fullYear ++ "-06-30")

/-- Keeps only the consonant characters of `generateId`: lower-case letters
and digits survive; every other character is part of a run replaced by `-`. -/
def isIdChar (c : Char) : Bool :=
  ('a' ≤ c && c ≤ 'z') || c.isDigit

/-- Collapses each maximal run of consecutive dashes to a single dash
(the effect of the global replacement `/[^a-z0-9]+/g`). -/
def squeezeDashes : List Char → List Char
  | [] => []
  | [c] => [c]
  | a :: b :: cs =>
    if a = '-' && b = '-' then squeezeDashes (b :: cs)
    else a :: squeezeDashes (b :: cs)

/-- Drops one leading and one trailing dash, the effect of the replacement
`/(^-|-$)/g` after runs have been collapsed. -/
def stripEdgeDashes (cs : List Char) : List Char :=
  let cs1 := match cs with
    | '-' :: rest => rest
    | other => other
  match cs1.reverse with
  | '-' :: rest => rest.reverse
  | _ => cs1

/-- `generateId` (data module lines 153-155): lower-case the name, replace
runs of non-alphanumerics by a dash, strip edge dashes. -/
def generateId (name : String) : String :=
  let dashed := (lowerStr name).data.map (fun c => if isIdChar c then c else '-')
  String.mk (stripEdgeDashes (squeezeDashes dashed))

/-- Column key for a fiscal-year label: `funding_` plus the lower-cased
label with its first `/` removed (JavaScript `replace('/', '')` replaces
only the first occurrence). -/
def removeFirstSlash : List Char → List Char
  | [] => []
  | c :: cs => if c = '/' then cs else c :: removeFirstSlash cs

/-- The `funding_${year.toLowerCase().replace('/', '')}` key of line 71. -/
def fundingKey (year : String) : String :=
  "funding_" ++ String.mk (removeFirstSlash (lowerStr year).data)

/-- Configured labels processed by the funding loop: every label except the
sentinel `Future`, in configuration order (the loop body returns early on
`Future`). -/
def loopYears (config : Config) : List String :=
  config.fundingYears.filter (fun y => y ≠ "Future")

/-- The `fundingYears` mapping built by `parseProject`: one entry per
non-`Future` configured label in order, then the `Future` entry from the
`funding_future` column. -/
def projFundingPairs (row : String → Option String) (config : Config) : List (String × ℚ) :=
  (loopYears config).map (fun year => (year, parseCurrency (row (fundingKey year))))
  ++ [("Future", parseCurrency (row "funding_future"))]

/-- Sum of all parsed funding amounts, `Future` included (the running
`totalFunding` accumulator before the explicit-total override). -/
def projFundingSum (row : String → Option String) (config : Config) : ℚ :=
  ((loopYears config).map (fun year => parseCurrency (row (fundingKey year)))).sum
  + parseCurrency (row "funding_future")

/-- The `firstFundedYear`/`lastFundedYear` accumulators of the funding loop:
for each positively funded label, `firstFundedYear` is set when still falsy
and `lastFundedYear` is overwritten. -/
def fundedFold (row : String → Option String) (config : Config) : Option String × Option String :=
  (loopYears config).foldl
    (fun acc year =>
      if 0 < parseCurrency (row (fundingKey year)) then
        ((if jsTruthyOptStr acc.1 then acc.1 else some year), some year)
      else acc)
    (none, none)

/-- The `parseDate` helper of lines 114-117: falsy values and the ongoing
sentinel `*` fall back, anything else is kept verbatim. -/
def parseDateField (value : Option String) (fallback : Option String) : Option String :=
  match value with
  | none => fallback
  | some s => if s = "" || s = "*" then fallback else some s

/-- JavaScript `row.x || default` on a string cell. -/
def jsOrStr (v : Option String) (d : String) : String :=
  match v with
  | none => d
  | some s => if s = "" then d else s

/-- JavaScript `row.x || null` on a string cell. -/
def jsOrNull (v : Option String) : Option String :=
  match v with
  | none => none
  | some s => if s = "" then none else some s

/-- `parseFloat` applied to a cell, as in `parseFloat(row.lat)`; the outer
`Option` is the truthiness guard `row.lat ? ... : null`, the inner one is
`NaN`. -/
def parseLatLng (v : Option String) : Option (Option ℚ) :=
  match v with
  | none => none
  | some s => if s = "" then none else some (jsParseFloat s)

/-- `parseProject` (data module lines 55-146): `none` for rows without a
truthy trimmed name, otherwise the full project record with parsed funding,
defaults from configuration and fiscal-year date inference. -/
def parseProject (row : String → Option String) (config : Config) : Option Project :=
  match row "name" with
  | none => none
  | some nm =>
    if nm = "" ∨ trimStr nm = "" then none
    else
      let fundingYears := projFundingPairs row config
      let futureFunding := parseCurrency (row "funding_future")
      let explicitTotalCost := parseCurrency (row "total_cost")
      let totalFunding := if 0 < explicitTotalCost then explicitTotalCost else projFundingSum row config
      let hasExplicitTotalCost := decide (0 < explicitTotalCost)
      let firstFundedYear := (fundedFold row config).1
      let lastFundedYear0 := (fundedFold row config).2
      let lastFundedYear :=
        if 0 < futureFunding && !(jsTruthyOptStr lastFundedYear0) then some "Future"
        else lastFundedYear0
      let fundingSource :=
        match row "funding_source" with
        | none => []
        | some s =>
          if s = "" then []
          else ((listSplitOn ',' s.data).map (fun cs => trimStr (String.mk cs))).filter (fun t => t ≠ "")
      let isOngoing :=
        row "start_date" = some "*" || row "construction_start" = some "*" || row "end_date" = some "*"
      let inferredStartDate := inferDateFromFiscalYear firstFundedYear "start"
      let inferredEndDate := inferDateFromFiscalYear lastFundedYear "end"
      let defaultType := jsOrStr config.projectTypes.head? "Other"
      let defaultStatus := jsOrStr config.statusOptions.head? "Planning"
      let defaultPriority := jsOrStr (config.priorityLevels.get? 2) "Medium"
      some
        { id := jsOrStr (row "id") (generateId nm)
          name := trimStr nm
          type := jsOrStr (row "type") defaultType
          status := jsOrStr (row "status") defaultStatus
          priority := jsOrStr (row "priority") defaultPriority
          description := jsOrNull (row "description")
          locationName := jsOrNull (row "location_name")
          lat := parseLatLng (row "lat")
          lng := parseLatLng (row "lng")
          hasLocation := jsTruthyOptStr (row "lat") && jsTruthyOptStr (row "lng")
          fundingYears := fundingYears
          totalFunding := totalFunding
          hasExplicitTotalCost := hasExplicitTotalCost
          fundingSource := fundingSource
          department := jsOrNull (row "department")
          startDate := parseDateField (row "start_date") inferredStartDate
          constructionStart := parseDateField (row "construction_start") none
          endDate := parseDateField (row "end_date") inferredEndDate
          isOngoing := isOngoing
          link := jsOrNull (row "link") }

/-! ### Hex grid geometry (src/js/user.js `generateHexGrid` lines 297-355,
src/docs/hex-location-format.md `hexIdToCenter` lines 80-97) -/

/-- Values of the two host math calls appearing in the grid formulas:
`sqrt3` stands for `Math.sqrt(3)` and `cosCenterLat` for
`Math.cos(centerLat * Math.PI / 180)`.  Both the generator and the ID
decoder receive the same context, exactly as both JavaScript functions
recompute the same expressions from the same centre latitude. -/
structure MathCtx where
  sqrt3 : ℚ
  cosCenterLat : ℚ
  deriving DecidableEq, Repr

/-- A geographic point `{lat, lng}`. -/
structure Coord where
  lat : ℚ
  lng : ℚ
  deriving DecidableEq, Repr

/-- The per-hexagon data kept by `generateHexGrid`: the stable ID and the
centre.  The Leaflet polygon and its event handlers are rendering state
outside the model. -/
structure HexCell where
  id : String
  center : Coord
  deriving DecidableEq, Repr

/-- The grid configuration consumed by `hexIdToCenter`
(`config.userLocationPicker`): centre point and hexagon size. -/
structure GridConfig where
  center : Coord
  hexSize : ℚ
  deriving DecidableEq, Repr

/-- A coordinate pair whose components may be `NaN` (modelled by `none`),
as returned by `hexIdToCenter` on malformed IDs. -/
structure JsCoord where
  lat : Option ℚ
  lng : Option ℚ
  deriving DecidableEq, Repr

/-- Inclusive integer range `[a, b]`, the index sequence of a JavaScript
`for (let i = a; i <= b; i++)` loop. -/
def intRange (a b : Int) : List Int :=
  (List.range (b + 1 - a).toNat).map (fun (i : Nat) => a + (i : Int))

/-- The `hex_${row}_${col}` template literal of line 320. -/
def mkHexId (row col : Int) : String :=
  String.mk (('h' :: 'e' :: 'x' :: '_' :: intRepr row) ++ '_' :: intRepr col)

/-- `generateHexGrid(centerLat, centerLng, hexSize, cols, rows)` (user.js
lines 297-355): pointy-top tiling with longitude correction, row/column
indices from `-floor(n/2)` to `floor(n/2)`, odd absolute rows offset by
half the column spacing. -/
def generateHexGrid (centerLat centerLng hexSize : ℚ) (cols rows : Nat) (ctx : MathCtx) :
    List HexCell :=
  let lngCorrection := 1 / ctx.cosCenterLat
  let vertSpacing := hexSize * (3 / 2)
  let horizSpacing := hexSize * ctx.sqrt3 * lngCorrection
  (intRange (-((rows / 2 : Nat) : Int)) ((rows / 2 : Nat) : Int)).flatMap fun row =>
    (intRange (-((cols / 2 : Nat) : Int)) ((cols / 2 : Nat) : Int)).map fun col =>
      let xOffset := if row.natAbs % 2 = 1 then horizSpacing / 2 else 0
      { id := mkHexId row col
        center :=
          { lat := centerLat + (row : ℚ) * vertSpacing
            lng := centerLng + (col : ℚ) * horizSpacing + xOffset } }

/-- `hexIdToCenter(hexId, config)` (hex-location-format.md lines 80-97):
split the ID on underscores, `parseInt` the second and third components,
and rebuild the centre with the generation formula.  A `NaN` component
propagates into the corresponding coordinate; `Math.abs(NaN) % 2 === 1`
is false, so a `NaN` row contributes no offset. -/
def hexIdToCenter (hexId : String) (config : GridConfig) (ctx : MathCtx) : JsCoord :=
  let parts := listSplitOn '_' hexId.data
  let row := jsParseInt ((parts.get? 1).map String.mk)
  let col := jsParseInt ((parts.get? 2).map String.mk)
  let lngCorrection := 1 / ctx.cosCenterLat
  let vertSpacing := config.hexSize * (3 / 2)
  let horizSpacing := config.hexSize * ctx.sqrt3 * lngCorrection
  let xOffset :=
    match row with
    | some r => if r.natAbs % 2 = 1 then horizSpacing / 2 else 0
    | none => 0
  { lat := row.map (fun (r : Int) => config.center.lat + (r : ℚ) * vertSpacing)
    lng := col.map (fun (c : Int) => config.center.lng + (c : ℚ) * horizSpacing + xOffset) }

/-! ### Claim theorems -/

/-- C7: the fully-empty criteria record (empty search, empty category sets,
no ranges) accepts every project under every configuration: it is the
identity/no-op filter. -/
theorem matchesFilters_empty_criteria (project : Project) (config : Config) :
    matchesFilters project emptyFilterCriteria config = true := rfl

/-- C8: `matchesFilters` is a total pure function on its documented input
domain: for every well-shaped project, criteria record and configuration
the evaluation reaches a boolean result (the embedding is a total Lean
function, so no exception and no side effect is possible). -/
theorem matchesFilters_total (project : Project) (filterCriteria : FilterCriteria)
    (config : Config) :
    matchesFilters project filterCriteria config = true ∨
      matchesFilters project filterCriteria config = false := by
  cases h : matchesFilters project filterCriteria config
  · exact Or.inr rfl
  · exact Or.inl rfl

/-- C3: `inferDateFromFiscalYear` returns `none` on a null label, the
sentinel `Future`, and any label without an `FY`-digit-digit match (and
being a total function it never throws); on a matching label with
two-digit year `yy` it returns `(fyFullYear yy - 1)-07-01` for edge
`start` and `(fyFullYear yy)-06-30` for any other edge, in particular
`2025-07-01`/`2026-06-30` for `FY26`. -/
theorem inferDateFromFiscalYear_spec (edge s : String) :
    inferDateFromFiscalYear none edge = none ∧
    inferDateFromFiscalYear (some "Future") edge = none ∧
    (fyMatch s.data = none → inferDateFromFiscalYear (some s) edge = none) ∧
    (∀ yy, fyMatch s.data = some yy →
      inferDateFromFiscalYear (some s) "start" = some (natReprS (fyFullYear yy - 1) ++ "-07-01") ∧
      (edge ≠ "start" →
        inferDateFromFiscalYear (some s) edge = some (natReprS (fyFullYear yy) ++ "-06-30"))) ∧
    inferDateFromFiscalYear (some "FY26") "start" = some "2025-07-01" ∧
    inferDateFromFiscalYear (some "FY26") "end" = some "2026-06-30" := by
  refine ⟨rfl, rfl, ?_, ?_, by decide, by decide⟩
  · intro h
    by_cases h1 : s = ""
    · simp [inferDateFromFiscalYear, h1]
    · by_cases h2 : s = "Future"
      · simp [inferDateFromFiscalYear, h2]
      · simp [inferDateFromFiscalYear, h1, h2, h]
  · intro yy hyy
    have h1 : s ≠ "" := by
      intro h1
      rw [h1] at hyy
      exact Option.noConfusion hyy
    have h2 : s ≠ "Future" := by
      intro h2
      rw [h2] at hyy
      exact Option.noConfusion ((by decide : fyMatch "Future".data = none) ▸ hyy)
    constructor
    · simp [inferDateFromFiscalYear, h1, h2, hyy]
    · intro hedge
      simp [inferDateFromFiscalYear, h1, h2, hyy, hedge]

/-- Witness for C3 at the concrete labels `garbage` (no match) and `FY26`
(match with suffix 26). -/
theorem inferDateFromFiscalYear_spec_witness :
    inferDateFromFiscalYear (some "garbage") "end" = none ∧
    inferDateFromFiscalYear (some "FY26") "start" = some (natReprS (fyFullYear 26 - 1) ++ "-07-01") := by
  refine ⟨(inferDateFromFiscalYear_spec "end" "garbage").2.2.1 (by decide), ?_⟩
  exact (((inferDateFromFiscalYear_spec "end" "FY26").2.2.2.1 26 (by decide)).1)

/-! ### Grid counting (C9, C10) -/

/-- The IDs of a generated grid, as a function of the requested dimensions
only (centres and sizes do not influence IDs). -/
def hexGridIds (cols rows : Nat) : List String :=
  (intRange (-((rows / 2 : Nat) : Int)) ((rows / 2 : Nat) : Int)).flatMap fun row =>
    (intRange (-((cols / 2 : Nat) : Int)) ((cols / 2 : Nat) : Int)).map fun col =>
      mkHexId row col

theorem generateHexGrid_map_id (centerLat centerLng hexSize : ℚ) (cols rows : Nat)
    (ctx : MathCtx) :
    (generateHexGrid centerLat centerLng hexSize cols rows ctx).map HexCell.id =
      hexGridIds cols rows := by
  simp only [generateHexGrid, hexGridIds, List.map_flatMap, List.map_map]
  rfl

theorem intRange_length (a b : Int) : (intRange a b).length = (b + 1 - a).toNat := by
  rw [intRange, List.length_map, List.length_range]

/-- C9: a grid requested with `cols = 7`, `rows = 5` consists of exactly
35 hexagons, and their IDs are pairwise distinct. -/
theorem generateHexGrid_7x5 (centerLat centerLng hexSize : ℚ) (ctx : MathCtx) :
    (generateHexGrid centerLat centerLng hexSize 7 5 ctx).length = 35 ∧
    ((generateHexGrid centerLat centerLng hexSize 7 5 ctx).map HexCell.id).Nodup := by
  constructor
  · rw [← List.length_map (generateHexGrid centerLat centerLng hexSize 7 5 ctx) HexCell.id,
      generateHexGrid_map_id]
    decide
  · rw [generateHexGrid_map_id]
    decide

/-- C10: for all non-negative requested dimensions the grid has exactly
`(2*(cols/2)+1) * (2*(rows/2)+1)` cells, since both index ranges run from
`-floor(n/2)` to `floor(n/2)` inclusive; in particular the realised
dimensions are always odd, and an even request such as `cols = 6`,
`rows = 5` yields 35 cells, strictly more than `6 * 5 = 30`. -/
theorem generateHexGrid_count (centerLat centerLng hexSize : ℚ) (ctx : MathCtx) :
    (∀ cols rows : Nat,
      (generateHexGrid centerLat centerLng hexSize cols rows ctx).length =
        (2 * (cols / 2) + 1) * (2 * (rows / 2) + 1)) ∧
    (generateHexGrid centerLat centerLng hexSize 6 5 ctx).length = 35 ∧ 6 * 5 < 35 := by
  have key : ∀ cols rows : Nat,
      (generateHexGrid centerLat centerLng hexSize cols rows ctx).length =
        (2 * (cols / 2) + 1) * (2 * (rows / 2) + 1) := by
    intro cols rows
    have hrow : (intRange (-((rows / 2 : Nat) : Int)) ((rows / 2 : Nat) : Int)).length =
        2 * (rows / 2) + 1 := by
      rw [intRange_length]; omega
    have hcol : (intRange (-((cols / 2 : Nat) : Int)) ((cols / 2 : Nat) : Int)).length =
        2 * (cols / 2) + 1 := by
      rw [intRange_length]; omega
    rw [generateHexGrid, List.length_flatMap]
    simp only [Function.comp_def, List.length_map, hcol]
    have hconst : ∀ (l : List Int) (c : Nat), (l.map fun _ => c).sum = l.length * c := by
      intro l c
      induction l with
      | nil => simp
      | cons a t ih => simp [ih, Nat.succ_mul, Nat.add_comm]
    rw [hconst, hrow, Nat.mul_comm]
  exact ⟨key, by rw [key], by omega⟩

/-! ### Funding-year stage (C1) -/

/-- Spec-side statement of when a configured label contributes to the
funding-year range filter (spec section 4.1 item 3): the sentinel `Future`
contributes exactly when `max >= 9999` and its funding is positive; a label
with a numeric suffix contributes when `2000 + suffix` lies within
`[min, max]` and that label's funding is positive; a label without a
numeric suffix never contributes. -/
def fundingContributesSpec (project : Project) (min max : Int) (fy : String) : Prop :=
  if fy = "Future" then 9999 ≤ max ∧ 0 < fundingAt project "Future"
  else ∃ ds, firstDigitRun fy.data = some ds ∧
    min ≤ (digitsToNat ds : Int) + 2000 ∧ (digitsToNat ds : Int) + 2000 ≤ max ∧
    0 < fundingAt project fy

theorem hasFundingInRange_iff (project : Project) (min max : Int) (config : Config) :
    hasFundingInRange project min max config = true ↔
      ∃ fy ∈ config.fundingYears, fundingContributesSpec project min max fy := by
  rw [hasFundingInRange, List.any_eq_true]
  refine exists_congr fun fy => and_congr_right fun _ => ?_
  by_cases hF : fy = "Future"
  · simp [hF, fundingContributesSpec]
  · rw [if_neg hF]
    unfold fundingContributesSpec
    rw [if_neg hF]
    cases hds : firstDigitRun fy.data with
    | none => simp
    | some ds => simp [and_assoc]

/-- C1: with a funding-year range set, the stage passes exactly when the
project's `totalFunding` is zero or some configured fiscal-year label
contributes in the sense of `fundingContributesSpec`.  The hypothesis
`0 ≤ totalFunding` is the data-model invariant of spec section 3 (the
total is an explicit positive value or a sum of non-negative amounts). -/
theorem fundingYearStage_spec (project : Project) (config : Config) (min max : Int)
    (htf : 0 ≤ project.totalFunding) :
    fundingYearFails project (some ⟨min, max⟩) config = false ↔
      (project.totalFunding = 0 ∨
        ∃ fy ∈ config.fundingYears, fundingContributesSpec project min max fy) := by
  rw [fundingYearFails]
  rw [Bool.and_eq_false_iff]
  rw [Bool.not_eq_false', decide_eq_false_iff_not, hasFundingInRange_iff]
  constructor
  · rintro (h | h)
    · exact Or.inr h
    · exact Or.inl (le_antisymm (not_lt.1 h) htf)
  · rintro (h | h)
    · exact Or.inr (by rw [h]; exact lt_irrefl 0)
    · exact Or.inl h

/-- Zero-funding project used to witness C1. -/
def projC1 : Project :=
  { id := "p1", name := "P1", type := "Parks", status := "Planning", priority := "Medium"
    description := none, locationName := none, lat := none, lng := none, hasLocation := false
    fundingYears := [("FY26", 0), ("Future", 0)], totalFunding := 0
    hasExplicitTotalCost := false, fundingSource := [], department := none
    startDate := none, constructionStart := none, endDate := none
    isOngoing := false, link := none }

/-- Configuration used by the C1 witness. -/
def cfgC1 : Config :=
  { fundingYears := ["FY26", "Future"], projectTypes := ["Parks"]
    statusOptions := ["Planning"], priorityLevels := ["Low", "Medium", "High"] }

/-- Witness for C1: a zero-funding project passes the stage for the range
`[2025, 2026]` under a two-label configuration. -/
theorem fundingYearStage_spec_witness :
    fundingYearFails projC1 (some ⟨2025, 2026⟩) cfgC1 = false ↔
      (projC1.totalFunding = 0 ∨
        ∃ fy ∈ cfgC1.fundingYears, fundingContributesSpec projC1 2025 2026 fy) :=
  fundingYearStage_spec projC1 cfgC1 2025 2026 (by with_unfolding_all decide)

/-! ### Timeline stage (C2) -/

/-- Spec-side failure condition of the timeline stage (spec section 4.1
item 4): with both years present the intervals must overlap, with one year
present the corresponding one-sided bound applies, with neither present the
stage passes unconditionally. -/
def timelineFailSpec (projectStart projectEnd : Option Int) (r : YearRange) : Prop :=
  match projectStart, projectEnd with
  | some s, some e => e < r.min ∨ s > r.max
  | some s, none => s > r.max
  | none, some e => e < r.min
  | none, none => False

/-- Well-formedness of a date field per the data model of spec section 3:
the field is `null` or an ISO date string whose calendar year is positive.
(The extracted year being positive makes JavaScript truthiness coincide
with presence.) -/
def wfDateField (d : Option String) : Prop :=
  d = none ∨ ∃ y, dateFieldYear d = some y ∧ 0 < y

/-- C2: with a timeline range set, an ongoing project always passes the
stage; otherwise the stage fails exactly under `timelineFailSpec` applied
to the calendar years extracted from the date strings, provided both date
fields are well-formed (null or an ISO date with a positive year). -/
theorem timelineStage_spec (project : Project) (r : YearRange)
    (hs : wfDateField project.startDate) (he : wfDateField project.endDate) :
    (project.isOngoing = true → timelineFails project (some r) = false) ∧
    (project.isOngoing = false →
      (timelineFails project (some r) = true ↔
        timelineFailSpec (dateFieldYear project.startDate) (dateFieldYear project.endDate) r)) := by
  constructor
  · intro hOngoing
    simp [timelineFails, hOngoing]
  · intro hOngoing
    rw [timelineFails]
    simp only [hOngoing, if_false, Bool.false_eq_true]
    have hsy : dateFieldYear project.startDate = none ∨
        ∃ y, dateFieldYear project.startDate = some y ∧ 0 < y := by
      rcases hs with h | h
      · exact Or.inl (by rw [h]; rfl)
      · exact Or.inr h
    have hey : dateFieldYear project.endDate = none ∨
        ∃ y, dateFieldYear project.endDate = some y ∧ 0 < y := by
      rcases he with h | h
      · exact Or.inl (by rw [h]; rfl)
      · exact Or.inr h
    rcases hsy with hsy | ⟨ys, hsy, hyspos⟩ <;> rcases hey with hey | ⟨ye, hey, hyepos⟩
    · rw [hsy, hey]
      simp [timelineFailSpec, jsTruthyYear]
    · rw [hsy, hey]
      have : jsTruthyYear (some ye) = true := by
        simp [jsTruthyYear]; omega
      simp [timelineFailSpec, jsTruthyYear, this, Option.getD] <;> omega
    · rw [hsy, hey]
      have : jsTruthyYear (some ys) = true := by
        simp [jsTruthyYear]; omega
      simp [timelineFailSpec, jsTruthyYear, this, Option.getD] <;> omega
    · rw [hsy, hey]
      have h1 : jsTruthyYear (some ys) = true := by
        simp [jsTruthyYear]; omega
      have h2 : jsTruthyYear (some ye) = true := by
        simp [jsTruthyYear]; omega
      simp [timelineFailSpec, h1, h2, Option.getD]

/-- Non-ongoing project with explicit dates used to witness C2. -/
def projC2 : Project :=
  { id := "p2", name := "P2", type := "Parks", status := "Planning", priority := "Medium"
    description := none, locationName := none, lat := none, lng := none, hasLocation := false
    fundingYears := [("FY26", 0), ("Future", 0)], totalFunding := 0
    hasExplicitTotalCost := false, fundingSource := [], department := none
    startDate := some "2020-01-01", constructionStart := none, endDate := some "2021-01-01"
    isOngoing := false, link := none }

/-- Witness for C2: a project spanning 2020-2021 against the range
`[2025, 2030]` (the stage fails exactly as the spec condition predicts). -/
theorem timelineStage_spec_witness :
    (projC2.isOngoing = true → timelineFails projC2 (some ⟨2025, 2030⟩) = false) ∧
    (projC2.isOngoing = false →
      (timelineFails projC2 (some ⟨2025, 2030⟩) = true ↔
        timelineFailSpec (dateFieldYear projC2.startDate) (dateFieldYear projC2.endDate)
          ⟨2025, 2030⟩)) :=
  timelineStage_spec projC2 ⟨2025, 2030⟩
    (Or.inr ⟨2020, by decide, by decide⟩) (Or.inr ⟨2021, by decide, by decide⟩)

/-! ### Funding parsing invariant (C6) -/

/-- CSV row whose `FY26` funding cell holds a negative number. -/
def rowC6 : String → Option String := fun k =>
  if k = "name" then some "X"
  else if k = "funding_fy26" then some "-100"
  else none

/-- The project produced by `parseProject` from `rowC6` under `cfgC1`. -/
def projC6 : Project :=
  { id := "x", name := "X", type := "Parks", status := "Planning", priority := "High"
    description := none, locationName := none, lat := none, lng := none, hasLocation := false
    fundingYears := [("FY26", -100), ("Future", 0)], totalFunding := -100
    hasExplicitTotalCost := false, fundingSource := [], department := none
    startDate := none, constructionStart := none, endDate := none
    isOngoing := false, link := none }

/-- Counterexample to C6: the row with funding cell `-100` is accepted by
`parseProject` and yields the funding value `-100` for label `FY26`, which
is negative, so not every value of `fundingYears` is non-negative. -/
theorem parseProject_negative_funding :
    parseProject rowC6 cfgC1 = some projC6 ∧
    ("FY26", (-100 : ℚ)) ∈ projC6.fundingYears ∧ ¬ ((0 : ℚ) ≤ -100) := by
  refine ⟨by with_unfolding_all decide, by with_unfolding_all decide, by with_unfolding_all decide⟩

/-- C6 (amended): for every accepted row whose funding cells — the
`funding_<label>` cells read for the configured labels together with
`funding_future` — parse to non-negative currency values, every value of
the produced `fundingYears` mapping is non-negative; and whenever the
configured fiscal-year set contains the sentinel `Future`, the mapping's
keys are exactly the configured set.  Non-funding cells such as a
negative longitude are unconstrained.  (The original claim fails for rows
carrying negative funding numbers, as `parseProject_negative_funding`
shows.) -/
theorem parseProject_funding_invariant (row : String → Option String) (config : Config)
    (p : Project)
    (hcells : ∀ year ∈ loopYears config, 0 ≤ parseCurrency (row (fundingKey year)))
    (hfut : 0 ≤ parseCurrency (row "funding_future"))
    (hp : parseProject row config = some p) :
    (∀ kv ∈ p.fundingYears, 0 ≤ kv.2) ∧
    ("Future" ∈ config.fundingYears →
      ∀ k, k ∈ p.fundingYears.map Prod.fst ↔ k ∈ config.fundingYears) := by
  have hfy : p.fundingYears = projFundingPairs row config := by
    cases hn : row "name" with
    | none => exact Option.noConfusion (by simpa only [parseProject, hn] using hp)
    | some nm =>
      simp only [parseProject, hn] at hp
      by_cases hname : nm = "" ∨ trimStr nm = ""
      · rw [if_pos hname] at hp; exact Option.noConfusion hp
      · rw [if_neg hname] at hp
        have := Option.some.inj hp
        rw [← this]
  constructor
  · intro kv hkv
    rw [hfy] at hkv
    rcases List.mem_append.1 hkv with h | h
    · rcases List.mem_map.1 h with ⟨year, hymem, hy⟩
      rw [← hy]
      exact hcells year hymem
    · rcases List.mem_singleton.1 h
      exact hfut
  · intro hFuture k
    rw [hfy]
    rw [projFundingPairs, loopYears]
    rw [List.map_append, List.map_map]
    simp only [Function.comp_def, List.map_cons, List.map_nil, List.mem_append,
      List.mem_map, List.mem_singleton, List.mem_filter]
    constructor
    · rintro (⟨y, ⟨hy, _⟩, rfl⟩ | rfl)
      · exact hy
      · exact hFuture
    · intro hk
      by_cases hkF : k = "Future"
      · exact Or.inr hkF
      · exact Or.inl ⟨k, ⟨hk, by simp [hkF]⟩, rfl⟩

/-- CSV row for the C6 witness: a well-formed funding cell together with
non-funding cells carrying this application's usual negative longitude. -/
def rowC6w : String → Option String := fun k =>
  if k = "name" then some "X"
  else if k = "funding_fy26" then some "1,000"
  else if k = "lat" then some "36"
  else if k = "lng" then some "-79"
  else none

/-- The project produced by `parseProject` from `rowC6w` under `cfgC1`
(its dates are inferred from the single funded year `FY26`). -/
def projC6w : Project :=
  { id := "x", name := "X", type := "Parks", status := "Planning", priority := "High"
    description := none, locationName := none
    lat := some (some (36 : ℚ)), lng := some (some (-79 : ℚ)), hasLocation := true
    fundingYears := [("FY26", 1000), ("Future", 0)], totalFunding := 1000
    hasExplicitTotalCost := false, fundingSource := [], department := none
    startDate := some "2025-07-01", constructionStart := none, endDate := some "2026-06-30"
    isOngoing := false, link := none }

/-- Witness for the amended C6 on a concrete accepted row whose funding
cells are non-negative while its longitude cell is negative. -/
theorem parseProject_funding_invariant_witness :
    (∀ kv ∈ projC6w.fundingYears, 0 ≤ kv.2) ∧
    ("Future" ∈ cfgC1.fundingYears →
      ∀ k, k ∈ projC6w.fundingYears.map Prod.fst ↔ k ∈ cfgC1.fundingYears) :=
  parseProject_funding_invariant rowC6w cfgC1 projC6w
    (fun year hy => by
      rw [show loopYears cfgC1 = ["FY26"] from rfl] at hy
      rcases List.mem_singleton.1 hy with rfl
      with_unfolding_all decide)
    (by with_unfolding_all decide)
    (by with_unfolding_all decide)

/-! ### Decimal printing and parsing round-trip (towards C4, C5) -/

theorem digitChar_toNat {m : Nat} (h : m < 10) : (digitChar m).toNat = 48 + m := by
  interval_cases m <;> decide

theorem digitChar_isDigit {m : Nat} (h : m < 10) : (digitChar m).isDigit = true := by
  interval_cases m <;> decide

theorem digitChar_not_space {m : Nat} (h : m < 10) : isSpaceChar (digitChar m) = false := by
  interval_cases m <;> decide

theorem digitChar_ne_minus {m : Nat} (h : m < 10) : digitChar m ≠ '-' := by
  interval_cases m <;> decide

theorem digitChar_ne_plus {m : Nat} (h : m < 10) : digitChar m ≠ '+' := by
  interval_cases m <;> decide

theorem digitChar_ne_underscore {m : Nat} (h : m < 10) : digitChar m ≠ '_' := by
  interval_cases m <;> decide

theorem digitsToNat_append_digit (ds : List Char) {m : Nat} (h : m < 10) :
    digitsToNat (ds ++ [digitChar m]) = 10 * digitsToNat ds + m := by
  rw [digitsToNat, digitsToNat, List.foldl_append, List.foldl_cons, List.foldl_nil,
    digitChar_toNat h]
  omega

/-- Every character of `natReprCore fuel n` (with enough fuel) is a decimal
digit, the digits denote `n`, and the list is non-empty. -/
theorem natReprCore_spec : ∀ fuel n, n < fuel →
    (∀ c ∈ natReprCore fuel n, ∃ m, m < 10 ∧ c = digitChar m) ∧
    digitsToNat (natReprCore fuel n) = n ∧
    natReprCore fuel n ≠ [] := by
  intro fuel
  induction fuel with
  | zero => intro n h; omega
  | succ fuel ih =>
    intro n h
    by_cases h10 : n < 10
    · rw [natReprCore, if_pos h10]
      refine ⟨?_, ?_, by simp⟩
      · intro c hc
        rcases List.mem_singleton.1 hc with rfl
        exact ⟨n, h10, rfl⟩
      · rw [show [digitChar n] = ([] : List Char) ++ [digitChar n] by simp,
          digitsToNat_append_digit _ h10]
        simp [digitsToNat]
    · have hdiv : n / 10 < fuel := by omega
      obtain ⟨hds, hval, hne⟩ := ih (n / 10) hdiv
      rw [natReprCore, if_neg h10]
      have hm : n % 10 < 10 := Nat.mod_lt _ (by omega)
      refine ⟨?_, ?_, by simp⟩
      · intro c hc
        rcases List.mem_append.1 hc with h' | h'
        · exact hds c h'
        · rcases List.mem_singleton.1 h' with rfl
          exact ⟨n % 10, hm, rfl⟩
      · rw [digitsToNat_append_digit _ hm, hval]
        omega

theorem natRepr_spec (n : Nat) :
    (∀ c ∈ natRepr n, ∃ m, m < 10 ∧ c = digitChar m) ∧
    digitsToNat (natRepr n) = n ∧ natRepr n ≠ [] :=
  natReprCore_spec (n + 1) n (Nat.lt_succ_self n)

theorem takeWhile_of_all {α} (p : α → Bool) :
    ∀ l : List α, (∀ c ∈ l, p c = true) → l.takeWhile p = l := by
  intro l
  induction l with
  | nil => intro _; rfl
  | cons a t ih =>
    intro h
    simp [List.takeWhile_cons, h a (List.mem_cons_self a t),
      ih fun c hc => h c (List.mem_cons_of_mem a hc)]

theorem parseDigitsL_all_digits (l : List Char) (hne : l ≠ [])
    (hds : ∀ c ∈ l, c.isDigit = true) : parseDigitsL l = some (digitsToNat l) := by
  rw [parseDigitsL]
  rw [takeWhile_of_all _ l hds]
  rw [List.isEmpty_eq_false_iff_exists_mem.2 ?_]
  · rfl
  · rcases List.exists_cons_of_ne_nil hne with ⟨c, t, rfl⟩
    exact ⟨c, List.mem_cons_self c t⟩

theorem jsParseIntL_natRepr (n : Nat) : jsParseIntL (natRepr n) = some (n : Int) := by
  obtain ⟨hds, hval, hne⟩ := natRepr_spec n
  rcases List.exists_cons_of_ne_nil hne with ⟨c, cs, hcons⟩
  obtain ⟨m, hm, rfl⟩ := hds c (hcons ▸ List.mem_cons_self c cs)
  have hdigits : ∀ c ∈ natRepr n, c.isDigit = true := fun c hc => by
    obtain ⟨m', hm', rfl⟩ := hds c hc
    exact digitChar_isDigit hm'
  have hdw : (natRepr n).dropWhile isSpaceChar = natRepr n := by
    rw [hcons, List.dropWhile_cons, digitChar_not_space hm]
    exact if_neg Bool.false_ne_true
  rw [jsParseIntL, hdw, hcons]
  dsimp only
  rw [if_neg (digitChar_ne_minus hm), if_neg (digitChar_ne_plus hm), ← hcons]
  rw [parseDigitsL_all_digits _ hne hdigits, hval]
  rfl

theorem jsParseIntL_intRepr (z : Int) : jsParseIntL (intRepr z) = some z := by
  by_cases hz : z < 0
  · rw [intRepr, if_pos hz]
    obtain ⟨hds, hval, hne⟩ := natRepr_spec z.natAbs
    have hdigits : ∀ c ∈ natRepr z.natAbs, c.isDigit = true := fun c hc => by
      obtain ⟨m', hm', rfl⟩ := hds c hc
      exact digitChar_isDigit hm'
    have hdw : ('-' :: natRepr z.natAbs).dropWhile isSpaceChar = '-' :: natRepr z.natAbs := by
      rw [List.dropWhile_cons]
      simp [isSpaceChar]
    rw [jsParseIntL, hdw]
    dsimp only
    rw [if_pos rfl]
    rw [parseDigitsL_all_digits _ hne hdigits, hval]
    show some (-(z.natAbs : Int)) = some z
    congr 1
    omega
  · rw [intRepr, if_neg hz, jsParseIntL_natRepr]
    congr 1
    omega

/-! ### Splitting on underscores (towards C4, C5) -/

theorem listSplitOn_ne_nil (sep : Char) : ∀ cs : List Char, listSplitOn sep cs ≠ [] := by
  intro cs
  induction cs with
  | nil => simp [listSplitOn]
  | cons c t ih =>
    rw [listSplitOn]
    by_cases h : c = sep
    · simp [h]
    · simp [h]

theorem listSplitOn_of_not_mem (sep : Char) :
    ∀ cs : List Char, sep ∉ cs → listSplitOn sep cs = [cs] := by
  intro cs
  induction cs with
  | nil => intro _; rfl
  | cons c t ih =>
    intro h
    have hc : ¬ c = sep := fun hc => h (hc ▸ List.mem_cons_self c t)
    have ht : sep ∉ t := fun ht => h (List.mem_cons_of_mem c ht)
    rw [listSplitOn]
    simp only [if_neg hc, ih ht]
    rfl

theorem listSplitOn_append (sep : Char) :
    ∀ (xs ys : List Char), sep ∉ xs →
      listSplitOn sep (xs ++ sep :: ys) = xs :: listSplitOn sep ys := by
  intro xs
  induction xs with
  | nil =>
    intro ys _
    rw [List.nil_append, listSplitOn, if_pos rfl]
  | cons c t ih =>
    intro ys h
    have hc : ¬ c = sep := fun hc => h (hc ▸ List.mem_cons_self c t)
    have ht : sep ∉ t := fun ht => h (List.mem_cons_of_mem c ht)
    rw [List.cons_append, listSplitOn]
    simp only [if_neg hc, ih ys ht]
    rfl

theorem underscore_not_mem_natRepr (n : Nat) : '_' ∉ natRepr n := by
  intro hmem
  obtain ⟨m, hm, hc⟩ := (natRepr_spec n).1 '_' hmem
  exact digitChar_ne_underscore hm hc.symm

theorem underscore_not_mem_intRepr (z : Int) : '_' ∉ intRepr z := by
  rw [intRepr]
  by_cases hz : z < 0
  · rw [if_pos hz]
    intro hmem
    rcases List.mem_cons.1 hmem with h | h
    · exact absurd h (by decide)
    · exact underscore_not_mem_natRepr _ h
  · rw [if_neg hz]
    exact underscore_not_mem_natRepr _

theorem listSplitOn_mkHexId (row col : Int) :
    listSplitOn '_' (mkHexId row col).data =
      [['h', 'e', 'x'], intRepr row, intRepr col] := by
  have h1 : (mkHexId row col).data =
      ['h', 'e', 'x'] ++ '_' :: (intRepr row ++ '_' :: intRepr col) := by
    rw [mkHexId]
    simp
  rw [h1, listSplitOn_append '_' ['h', 'e', 'x'] _ (by decide),
    listSplitOn_append '_' (intRepr row) _ (underscore_not_mem_intRepr row),
    listSplitOn_of_not_mem '_' (intRepr col) (underscore_not_mem_intRepr col)]

/-! ### Hex ID round-trip (C4) and malformed-ID behaviour (C5) -/

theorem hexIdToCenter_mkHexId (row col : Int) (config : GridConfig) (ctx : MathCtx) :
    hexIdToCenter (mkHexId row col) config ctx =
      { lat := some (config.center.lat + (row : ℚ) * (config.hexSize * (3 / 2)))
        lng := some (config.center.lng +
          (col : ℚ) * (config.hexSize * ctx.sqrt3 * (1 / ctx.cosCenterLat)) +
          (if row.natAbs % 2 = 1 then
            config.hexSize * ctx.sqrt3 * (1 / ctx.cosCenterLat) / 2 else 0)) } := by
  rw [hexIdToCenter]
  rw [show (mkHexId row col).data =
      ['h', 'e', 'x'] ++ '_' :: (intRepr row ++ '_' :: intRepr col) by rw [mkHexId]; simp]
  rw [listSplitOn_append '_' ['h', 'e', 'x'] _ (by decide),
    listSplitOn_append '_' (intRepr row) _ (underscore_not_mem_intRepr row),
    listSplitOn_of_not_mem '_' (intRepr col) (underscore_not_mem_intRepr col)]
  dsimp only [List.get?, jsParseInt]
  have hrow : ((Option.map String.mk (some (intRepr row))).bind fun s => jsParseIntL s.data) =
      some row := jsParseIntL_intRepr row
  have hcol : ((Option.map String.mk (some (intRepr col))).bind fun s => jsParseIntL s.data) =
      some col := jsParseIntL_intRepr col
  rw [hrow, hcol]
  rfl

/-- C4: every hexagon generated by `generateHexGrid` round-trips: decoding
its ID with `hexIdToCenter` under a grid configuration carrying the same
centre and hexagon size (and hence the same host `Math.sqrt(3)` and
`Math.cos` values) reproduces its centre exactly — in exact rational
arithmetic the reconstruction equals the generated centre, which is
stronger than the floating-point tolerance the spec asks for. -/
theorem hexGrid_round_trip (ctx : MathCtx) (centerLat centerLng hexSize : ℚ)
    (cols rows : Nat) (H : HexCell)
    (hH : H ∈ generateHexGrid centerLat centerLng hexSize cols rows ctx) :
    hexIdToCenter H.id { center := { lat := centerLat, lng := centerLng }, hexSize := hexSize }
      ctx = { lat := some H.center.lat, lng := some H.center.lng } := by
  rw [generateHexGrid] at hH
  rcases List.mem_flatMap.1 hH with ⟨row, hrowmem, hH2⟩
  rcases List.mem_map.1 hH2 with ⟨col, hcolmem, rfl⟩
  rw [hexIdToCenter_mkHexId]

/-- Context and grid parameters for the C4 witness. -/
def ctxC4 : MathCtx := { sqrt3 := 2, cosCenterLat := 1 }

/-- The generated cell used by the C4 witness. -/
def hexC4 : HexCell := { id := "hex_0_0", center := { lat := 3, lng := 4 } }

/-- Witness for C4 at a concrete one-cell grid. -/
theorem hexGrid_round_trip_witness :
    hexIdToCenter hexC4.id { center := { lat := 3, lng := 4 }, hexSize := 1 } ctxC4 =
      { lat := some hexC4.center.lat, lng := some hexC4.center.lng } :=
  hexGrid_round_trip ctxC4 3 4 1 1 1 hexC4 (by with_unfolding_all decide)

/-- Grid configuration used by the C5 counterexample. -/
def cfgC5 : GridConfig := { center := { lat := 10, lng := 20 }, hexSize := 1 }

/-- Counterexample to C5: the malformed ID `foo_3_4` (wrong format) does
not produce an error — `hexIdToCenter` silently coerces it to the same
bona-fide location as the well-formed `hex_3_4`. -/
theorem hexIdToCenter_malformed_id_coerced :
    hexIdToCenter "foo_3_4" cfgC5 ctxC4 = { lat := some (29 / 2), lng := some 29 } ∧
    hexIdToCenter "foo_3_4" cfgC5 ctxC4 = hexIdToCenter "hex_3_4" cfgC5 ctxC4 := by
  constructor
  · with_unfolding_all decide
  · with_unfolding_all decide

/-- C5 (amended): `hexIdToCenter` never throws (it is a total function);
on a malformed ID it performs silent coercion instead of failing: any ID
whose second and third underscore-separated components are integer
numerals decodes to the corresponding grid centre regardless of its
prefix, and an ID with non-numeric components yields `NaN` coordinates. -/
theorem hexIdToCenter_malformed (config : GridConfig) (ctx : MathCtx) (pre : List Char)
    (row col : Int) (hpre : '_' ∉ pre) :
    hexIdToCenter (String.mk (pre ++ '_' :: (intRepr row ++ '_' :: intRepr col))) config ctx =
      hexIdToCenter (mkHexId row col) config ctx ∧
    hexIdToCenter "hex_a_b" config ctx = { lat := none, lng := none } := by
  constructor
  · have h1 : listSplitOn '_'
        (String.mk (pre ++ '_' :: (intRepr row ++ '_' :: intRepr col))).data =
        pre :: intRepr row :: [intRepr col] := by
      rw [show (String.mk (pre ++ '_' :: (intRepr row ++ '_' :: intRepr col))).data =
          pre ++ '_' :: (intRepr row ++ '_' :: intRepr col) from rfl]
      rw [listSplitOn_append '_' pre _ hpre,
        listSplitOn_append '_' (intRepr row) _ (underscore_not_mem_intRepr row),
        listSplitOn_of_not_mem '_' (intRepr col) (underscore_not_mem_intRepr col)]
    rw [hexIdToCenter, hexIdToCenter, h1, listSplitOn_mkHexId]
    rfl
  · rfl

/-- Witness for the amended C5: the prefix `zz` with components `1` and
`2` decodes exactly like `hex_1_2`, and `hex_a_b` gives `NaN`s. -/
theorem hexIdToCenter_malformed_witness :
    hexIdToCenter (String.mk ("zz".data ++ '_' :: (intRepr 1 ++ '_' :: intRepr 2))) cfgC5 ctxC4 =
      hexIdToCenter (mkHexId 1 2) cfgC5 ctxC4 ∧
    hexIdToCenter "hex_a_b" cfgC5 ctxC4 = { lat := none, lng := none } :=
  hexIdToCenter_malformed cfgC5 ctxC4 "zz".data 1 2 (by decide)

end Cipmap
